import Mathlib

/-!
Shallow embedding of the two-phase marketplace scraper (src/scraper.py) and of
the interactive login bootstrap (src/create_auth_state.py, no logic modelled).
Pure helpers are translated directly; the stateful phases are modelled as
explicit state passing over list-based tables, with the behaviour of the
rendering surface and of the network supplied as explicit inputs.
-/

set_option maxRecDepth 10000

-- ## String utilities

/-- Substring test on character lists, modelling the Python operator
`needle in hay` on strings. -/
def substrAux (pat : List Char) : List Char → Bool
  | [] => pat.isEmpty
  | c :: rest => pat.isPrefixOf (c :: rest) || substrAux pat rest

/-- The Python membership test `pat in hay` for strings. -/
def containsSubstr (hay pat : String) : Bool :=
  substrAux pat.toList hay.toList

-- ## extract_phone_number (src/scraper.py lines 80-103)

/-- U+FE0F, the variation selector inside every keycap digit emoji. -/
def emojiVS : Char := Char.ofNat 0xFE0F

/-- U+20E3, the combining enclosing keycap inside every keycap digit emoji. -/
def emojiKeycap : Char := Char.ofNat 0x20E3

/-- Models the ten text.replace calls over emoji_map (lines 85-91): every
keycap digit emoji, the three-codepoint sequence digit, U+FE0F, U+20E3,
becomes the bare digit. -/
def normalizeEmojiDigits : List Char → List Char
  | [] => []
  | [c] => [c]
  | [c, v] => [c, v]
  | c :: v :: k :: rest2 =>
    if c.isDigit && v == emojiVS && k == emojiKeycap then
      c :: normalizeEmojiDigits rest2
    else c :: normalizeEmojiDigits (v :: k :: rest2)

/-- The whitespace class of the regex on line 96 (ASCII part of re \s). -/
def isPySpace (c : Char) : Bool :=
  c = ' ' || c = Char.ofNat 9 || c = Char.ofNat 10 || c = Char.ofNat 11 ||
  c = Char.ofNat 12 || c = Char.ofNat 13

/-- The separator class appearing after groups 1, 2 and 4 of the phone regex
on line 96: whitespace, dot, comma or hyphen. -/
def sepMain (c : Char) : Bool := isPySpace c || c = '.' || c = ',' || c = '-'

/-- The separator class appearing after group 3 of the phone regex on line 96:
whitespace, dot, comma, double quote or underscore. In the source this class
reads a double quote and an underscore where the other three classes have a
hyphen. -/
def sepThird (c : Char) : Bool :=
  isPySpace c || c = '.' || c = ',' || c = '"' || c = '_'

/-- Consumes one optional separator character (the regex quantifier on one
separator class). -/
def skipSep (sep : Char → Bool) : List Char → List Char
  | [] => []
  | c :: rest => if sep c then rest else c :: rest

/-- Consumes exactly two ASCII digits. -/
def twoDigits : List Char → Option (Char × Char × List Char)
  | a :: b :: rest => if a.isDigit && b.isDigit then some (a, b, rest) else none
  | _ => none

/-- Matches the phone regex of line 96 at the start of the character list and
returns the concatenated capture groups. Since no separator character is a
digit, the backtracking of the regex engine is deterministic here: a separator
is consumed exactly when the next character belongs to its class. -/
def matchPhoneAt : List Char → Option String
  | '0' :: p :: rest =>
    if p = '5' || p = '6' || p = '7' then
      match twoDigits (skipSep sepMain rest) with
      | none => none
      | some (a1, a2, r1) =>
        match twoDigits (skipSep sepMain r1) with
        | none => none
        | some (b1, b2, r2) =>
          match twoDigits (skipSep sepThird r2) with
          | none => none
          | some (c1, c2, r3) =>
            match twoDigits (skipSep sepMain r3) with
            | none => none
            | some (d1, d2, _) =>
              some (String.mk ['0', p, a1, a2, b1, b2, c1, c2, d1, d2])
    else none
  | _ => none

/-- Leftmost-position search, modelling re.search on line 96. -/
def searchPhone : List Char → Option String
  | [] => none
  | c :: rest =>
    match matchPhoneAt (c :: rest) with
    | some r => some r
    | none => searchPhone rest

/-- Models extract_phone_number (lines 80-103). The empty string models falsy
text on line 82. Digits are the ASCII digits, the common ground of the Python
digit class and of int(). -/
def extract_phone_number (text : String) : Option String :=
  if text = "" then none
  else searchPhone (normalizeEmojiDigits text.toList)

-- ## Price parsing (lines 410-411)

/-- The numeric value of a digit string, as Python int() on a nonempty string
of ASCII digits. -/
def digitsToNat (ds : List Char) : Nat :=
  ds.foldl (fun n c => n * 10 + (c.toNat - 48)) 0

/-- Models lines 410-411: join the digit characters of price_text; the price
is int() of that string when it is nonempty, and 1 when the text contains no
digit at all. Python str.isdigit also accepts further Unicode digit
characters; the model covers the ASCII digits. -/
def parse_price (price_text : String) : Nat :=
  let price_digits := price_text.toList.filter Char.isDigit
  if price_digits.isEmpty then 1 else digitsToNat price_digits

/-- The reading of claim C7: strip the non-digit characters, take the integer
value of what remains (0 when nothing remains), then coerce a parsed value of
0 to 1. Written from the words of the claim, for comparison with
parse_price. -/
def parse_price_claim_reading (price_text : String) : Nat :=
  let n := digitsToNat (price_text.toList.filter Char.isDigit)
  if n = 0 then 1 else n

-- ## Link discovery store (collect phase, src/scraper.py lines 206-266)

/-- The four-value status enumeration of the marketplace_links table. -/
inductive LinkStatus where
  | new
  | processing
  | completed
  | error
deriving DecidableEq, Repr

/-- One row of the marketplace_links table as the collect phase sees it. The
status column takes its schema default, new, on insertion. -/
structure CollectRow where
  fbItemId : String
  url : String
  status : LinkStatus
deriving DecidableEq, Repr

/-- The marketplace_links table as seen by the collect phase. -/
structure CollectDB where
  rows : List CollectRow
deriving DecidableEq, Repr

/-- INSERT IGNORE keyed by the unique fb_item_id column (line 247), returning
the new table and the cursor rowcount: 1 when a row was inserted, 0 when the
insert was ignored because the key was already present. -/
def insertIgnore (db : CollectDB) (itemId url : String) : CollectDB × Nat :=
  if db.rows.any (fun r => r.fbItemId == itemId) then (db, 0)
  else ({ rows := db.rows ++ [{ fbItemId := itemId, url := url, status := .new }] }, 1)

/-- Models line 240: split the href on the slash, take index 3, split that on
the question mark and take index 0. An out-of-range index raises IndexError,
which the handler on line 255 turns into skipping the element; that case is
none here. -/
def parseItemId (href : String) : Option String :=
  let parts := href.splitOn "/"
  if h : 3 < parts.length then some (((parts.get ⟨3, h⟩).splitOn "?").headD "")
  else none

/-- The in-run state of the collection loop (lines 207-210 and 234). -/
structure CollectState where
  db : CollectDB
  seen : List String
  collected : Nat
  newInBatch : Nat
deriving DecidableEq, Repr

/-- One iteration of the inner collection loop (lines 235-253) on one anchor
element. href is none when get_attribute returned null; the empty string is
also falsy in the guard on line 238. -/
def collectStep (st : CollectState) (href : Option String) : CollectState :=
  match href with
  | none => st
  | some h =>
    if h = "" then st
    else
      match parseItemId h with
      | none => st
      | some itemId =>
        if itemId ∈ st.seen then st
        else
          let fullUrl := "https://www.facebook.com" ++ h
          match insertIgnore st.db itemId fullUrl with
          | (db2, rc) =>
            if 0 < rc then
              { db := db2, seen := st.seen ++ [itemId],
                collected := st.collected + 1, newInBatch := st.newInBatch + 1 }
            else
              { st with db := db2, seen := st.seen ++ [itemId] }

-- ## Stagnation policy of the infinite scroll loop (lines 213-232)

/-- The stagnation bookkeeping of the infinite scroll loop:
consecutive_scrolls_with_no_new_links and last_link_count. -/
structure ScrollState where
  counter : Nat
  last : Nat
deriving DecidableEq, Repr

/-- One iteration of the stagnation bookkeeping (lines 219-232): given the
number of currently rendered references, returns the new state and the
cooldown slept this iteration (some 30 models time.sleep(30) on line 229). -/
def scrollStep (st : ScrollState) (current : Nat) : ScrollState × Option Nat :=
  let c := if current = st.last ∧ 0 < st.last then st.counter + 1 else 0
  if 5 ≤ c then ({ counter := 0, last := current }, some 30)
  else ({ counter := c, last := current }, none)

/-- Runs the stagnation bookkeeping over a sequence of rendered reference
counts, collecting the cooldown slept at each iteration. -/
def scrollRun (st : ScrollState) : List Nat → ScrollState × List (Option Nat)
  | [] => (st, [])
  | n :: rest =>
    match scrollStep st n with
    | (st2, d) =>
      match scrollRun st2 rest with
      | (st3, ds) => (st3, d :: ds)

-- ## Process phase data model (lines 371-475)

/-- One row of the marketplace_links table as the process phase sees it. -/
structure LinkRow where
  id : Nat
  url : String
  status : LinkStatus
  processedAt : Option Nat
deriving DecidableEq, Repr

/-- One row of the properties table, with the columns of property_data
(lines 440-447) plus the store-assigned id (lastrowid, line 453). The
misspelled column name descritpion is kept from the source. Timestamps are
abstract instants (Nat). -/
structure PropertyRow where
  id : Nat
  slug : String
  userid : Nat
  type : Nat
  choice : String
  willaya : Nat
  commune : Nat
  location_text : String
  title : String
  descritpion : String
  surface : Nat
  telephone : Option String
  expiredin : Nat
  price : Nat
  pricenegiciae : Nat
  priceunite : String
  bedroom : Nat
  bethroom : Nat
  balcony : Nat
  agent : Nat
  latitude : Nat
  longitude : Nat
  status : Nat
  entry_date : Nat
  published_at : Nat
deriving DecidableEq, Repr

/-- One row of the media table (lines 455-457). -/
structure MediaRow where
  model_id : Nat
  model_type : Nat
  file_name : String
  user_id : Nat
  created_at : Nat
deriving DecidableEq, Repr

/-- The relational store as the process phase sees it. nextPropertyId models
the auto-increment counter behind lastrowid. -/
structure ProcessDB where
  links : List LinkRow
  properties : List PropertyRow
  media : List MediaRow
  nextPropertyId : Nat
deriving DecidableEq, Repr

/-- Models slugify (lines 50-53): lower-case and trim, keep alphanumerics and
spaces, turn spaces into hyphens, truncate to 95 characters. -/
def slugify (text : String) : String :=
  let t := (text.trim.toList.map Char.toLower).filter (fun c => c.isAlphanum || c = ' ')
  String.mk ((t.map (fun c => if c = ' ' then '-' else c)).take 95)

-- ## Batch claim (lines 376-387)

/-- PROCESS_LIMIT, line 30. -/
def PROCESS_LIMIT : Nat := 100

/-- The WHERE clause of the claim query on line 377. -/
def claimFilter (r : LinkRow) : Bool := r.status == .new || r.status == .error

/-- Ascending insertion by the id column. -/
def insertById (r : LinkRow) : List LinkRow → List LinkRow
  | [] => [r]
  | x :: xs => if r.id ≤ x.id then r :: x :: xs else x :: insertById r xs

/-- ORDER BY id ASC. -/
def sortById : List LinkRow → List LinkRow
  | [] => []
  | x :: xs => insertById x (sortById xs)

/-- Models lines 376-387: select up to PROCESS_LIMIT rows whose status is new
or error, ordered by id ascending, FOR UPDATE; then set the status of every
selected row to processing and commit. The row lock taken by FOR UPDATE makes
the whole step one atomic transition of the shared store, which is how it is
modelled here. Returns the claimed rows and the committed store. -/
def claimBatch (db : ProcessDB) : List LinkRow × ProcessDB :=
  let selected := (sortById (db.links.filter claimFilter)).take PROCESS_LIMIT
  let ids := selected.map (fun r => r.id)
  (selected,
   { db with links := db.links.map (fun r =>
       if r.id ∈ ids then { r with status := .processing } else r) })

-- ## The per-item try block (lines 389-461)

/-- The Python exception classes the item loop distinguishes. timeoutError is
the playwright TimeoutError imported on line 9; surfaceError models the
playwright Error class raised when the target page, context or browser has
been closed under a live handle. -/
inductive PyExc where
  | nameError (msg : String)
  | valueError (msg : String)
  | connectionError (msg : String)
  | timeoutError (msg : String)
  | surfaceError (msg : String)
deriving DecidableEq, Repr

/-- str(e), the message of the exception. -/
def PyExc.msg : PyExc → String
  | .nameError m => m
  | .valueError m => m
  | .connectionError m => m
  | .timeoutError m => m
  | .surfaceError m => m

/-- Whether the exception is caught by the handler on line 463, which names
ValueError, ConnectionError and TimeoutError; everything else falls to the
generic handler on line 466. -/
def PyExc.controlled : PyExc → Bool
  | .valueError _ => true
  | .connectionError _ => true
  | .timeoutError _ => true
  | .nameError _ => false
  | .surfaceError _ => false

/-- The behaviour of the rendering surface and of the network while one item
is processed: one field per fallible interaction of the try block. imageSrcs
lists the src attribute of each rendered img element; download gives the
saved file name when the fetch succeeds and none when it fails. -/
structure ItemEnv where
  pageClosed : Bool
  gotoExc : Option PyExc
  titleRes : Except PyExc String
  priceRes : Except PyExc String
  locationRes : Except PyExc String
  descriptionRes : Except PyExc String
  imageWaitExc : Option PyExc
  imageSrcs : List (Option String)
  download : String → Option String

/-- Lines 413-416: a TimeoutError from the location locator falls back to the
text Unknown; any other exception propagates. -/
def locationStep (env : ItemEnv) : Except PyExc String :=
  match env.locationRes with
  | .ok s => .ok s
  | .error (.timeoutError _) => .ok "Unknown"
  | .error e => .error e

/-- Lines 418-421: a TimeoutError from the description locator falls back to
the title. -/
def descriptionStep (env : ItemEnv) (title : String) : Except PyExc String :=
  match env.descriptionRes with
  | .ok s => .ok s
  | .error (.timeoutError _) => .ok title
  | .error e => .error e

/-- Models line 425, the call get_location_ids(db_conn, location_text). No
function of that name is defined anywhere in the program; the repository
defines only get_commune_id (lines 56-77). Evaluating the name therefore
raises NameError in Python, before the image and persistence steps run. The
Python message quotes the name: name get_location_ids is not defined. -/
def get_location_ids_call : Except PyExc (Nat × Nat) :=
  .error (.nameError "name get_location_ids is not defined")

/-- Lexicographic order on code points, the Python string order. -/
def charListLe : List Char → List Char → Bool
  | [], _ => true
  | _ :: _, [] => false
  | a :: as, b :: bs => if a = b then charListLe as bs else decide (a.toNat < b.toNat)

/-- Python string comparison for sorted(). -/
def strLe (a b : String) : Bool := charListLe a.toList b.toList

/-- Ascending insertion for string sorting. -/
def insertStr (s : String) : List String → List String
  | [] => [s]
  | x :: xs => if strLe s x then s :: x :: xs else x :: insertStr s xs

/-- Python sorted() on a list of strings. -/
def sortStrings : List String → List String
  | [] => []
  | x :: xs => insertStr x (sortStrings xs)

/-- Line 432: keep the srcs that are present, truthy and contain scontent,
deduplicate them (set) and sort the result. -/
def collectImageUrls (srcs : List (Option String)) : List String :=
  sortStrings (((srcs.filterMap id).filter
    (fun s => !(s == "") && containsSubstr s "scontent")).dedup)

/-- Lines 429-461 of the try block: wait for the first image, collect and
filter the image urls, download them all, then insert the property row and
its media rows. Control never reaches this code at run time because the call
modelled by get_location_ids_call raises first; it is kept so that the whole
try body is present in the model. Files written by successful downloads
survive a later exception. -/
def afterLocation (now : Nat) (env : ItemEnv) (db : ProcessDB) (files : List String)
    (title : String) (price : Nat) (location_text description : String)
    (phone_number : Option String) (commune_id willaya_id : Nat) :
    Except PyExc ProcessDB × List String :=
  match env.imageWaitExc with
  | some e => (.error e, files)
  | none =>
    let image_urls := collectImageUrls env.imageSrcs
    if image_urls.isEmpty then (.error (.valueError "No valid image URLs found."), files)
    else
      let downloaded := image_urls.map env.download
      let files2 := files ++ downloaded.filterMap id
      if downloaded.any (fun d => d.isNone) then
        (.error (.connectionError "An image failed to download."), files2)
      else
        let property_id := db.nextPropertyId
        let prop : PropertyRow := {
          id := property_id, slug := slugify title, userid := 1, type := 1,
          choice := "rent", willaya := willaya_id, commune := commune_id,
          location_text := location_text, title := title, descritpion := description,
          surface := 0, telephone := phone_number, expiredin := 30, price := price,
          pricenegiciae := 0, priceunite := "DA", bedroom := 0, bethroom := 0,
          balcony := 0, agent := 0, latitude := 0, longitude := 0, status := 1,
          entry_date := now, published_at := now }
        let mediaRows := (downloaded.filterMap id).map (fun f =>
          ({ model_id := property_id, model_type := 1, file_name := f,
             user_id := 1, created_at := now } : MediaRow))
        (.ok { db with properties := db.properties ++ [prop],
                       media := db.media ++ mediaRows,
                       nextPropertyId := property_id + 1 }, files2)

/-- The whole try block of the item loop (lines 393-461): the committed store
on success, or the raised exception. The second component is the local file
store after the attempt; files survive an exception, while the database
changes of a failed attempt are rolled back by the caller. -/
def itemBody (now : Nat) (env : ItemEnv) (db : ProcessDB) (files : List String) :
    Except PyExc ProcessDB × List String :=
  if env.pageClosed then (.error (.connectionError "Browser page closed."), files)
  else
    match env.gotoExc with
    | some e => (.error e, files)
    | none =>
      match env.titleRes with
      | .error e => (.error e, files)
      | .ok title =>
        match env.priceRes with
        | .error e => (.error e, files)
        | .ok price_text =>
          let price := parse_price price_text
          match locationStep env with
          | .error e => (.error e, files)
          | .ok location_text =>
            match descriptionStep env title with
            | .error e => (.error e, files)
            | .ok description =>
              let phone_number := extract_phone_number description
              match get_location_ids_call with
              | .error e => (.error e, files)
              | .ok (commune_id, willaya_id) =>
                afterLocation now env db files title price location_text
                  description phone_number commune_id willaya_id

/-- The exception that the try block raises for a given environment. The item
body always raises: even when every surface interaction succeeds, the call on
line 425 raises NameError. -/
def itemExc (env : ItemEnv) : PyExc :=
  if env.pageClosed then .connectionError "Browser page closed."
  else
    match env.gotoExc with
    | some e => e
    | none =>
      match env.titleRes with
      | .error e => e
      | .ok title =>
        match env.priceRes with
        | .error e => e
        | .ok _ =>
          match locationStep env with
          | .error e => e
          | .ok _ =>
            match descriptionStep env title with
            | .error e => e
            | .ok _ => .nameError "name get_location_ids is not defined"

/-- Whether the exception makes line 469 stop the remaining batch: it reached
the generic handler and its message contains the text Target page. -/
def itemBreaks (env : ItemEnv) : Bool :=
  !(itemExc env).controlled && containsSubstr (itemExc env).msg "Target page"

-- ## The item loop and finalization (lines 389-475)

/-- The run state of the process phase: the shared store plus the local image
file directory. -/
structure PState where
  db : ProcessDB
  files : List String
deriving DecidableEq, Repr

/-- The finally block (lines 470-474): set the status and the processed
timestamp of the link row and commit. -/
def finalizeLink (now : Nat) (linkId : Nat) (st : LinkStatus)
    (links : List LinkRow) : List LinkRow :=
  links.map (fun r =>
    if r.id = linkId then { r with status := st, processedAt := some now } else r)

/-- One iteration of the item loop (lines 389-475): run the try block; on
success keep the committed store and finalize the link as completed; on an
exception roll the store back, finalize the link as error, and report whether
line 469 breaks out of the loop (the finally block runs before the break
takes effect). -/
def processItem (now : Nat) (env : ItemEnv) (link : LinkRow) (st : PState) :
    PState × Bool :=
  match itemBody now env st.db st.files with
  | (.ok db2, files2) =>
      ({ db := { db2 with links := finalizeLink now link.id .completed db2.links },
         files := files2 }, false)
  | (.error e, files2) =>
      let brk := !e.controlled && containsSubstr e.msg "Target page"
      ({ db := { st.db with links := finalizeLink now link.id .error st.db.links },
         files := files2 }, brk)

/-- The for loop of lines 389-475 over the claimed rows, stopping early when
an iteration breaks. The environment of each item is looked up by its link
id. -/
def processLoop (now : Nat) (envOf : Nat → ItemEnv) :
    List LinkRow → PState → PState
  | [], st => st
  | link :: rest, st =>
    match processItem now (envOf link.id) link st with
    | (st2, true) => st2
    | (st2, false) => processLoop now envOf rest st2

/-- process_links (lines 372-475): claim a batch, return at once when it is
empty (line 380), otherwise run the item loop on the committed store. -/
def process_links (now : Nat) (envOf : Nat → ItemEnv) (db : ProcessDB)
    (files : List String) : PState :=
  match claimBatch db with
  | (claimed, db2) =>
    if claimed.isEmpty then { db := db, files := files }
    else processLoop now envOf claimed { db := db2, files := files }

-- ## Concrete environments and stores used by witnesses and counterexamples

/-- A page that behaves exactly as the end-to-end scenario of claim C1
describes: title Flat A, price text 50000 DZD, a location, a description
carrying an emoji-encoded phone number, and two image urls on the asset host
that both download successfully. -/
def envFlatA : ItemEnv := {
  pageClosed := false, gotoExc := none,
  titleRes := .ok "Flat A", priceRes := .ok "50000 DZD",
  locationRes := .ok "Algiers",
  descriptionRes := .ok "Nice flat, call 0️⃣5️⃣5️⃣1️⃣2️⃣3️⃣4️⃣5️⃣6️⃣7️⃣",
  imageWaitExc := none,
  imageSrcs := [some "https://scontent.host/img_a.jpg",
                some "https://scontent.host/img_b.jpg"],
  download := fun u => some (u ++ ".saved.jpg") }

/-- A page whose handle reports closed before navigation. -/
def envPageClosed : ItemEnv := {
  pageClosed := true, gotoExc := none,
  titleRes := .ok "", priceRes := .ok "",
  locationRes := .ok "", descriptionRes := .ok "",
  imageWaitExc := none, imageSrcs := [], download := fun _ => none }

/-- A page whose navigation raises because the target page, context or
browser has been closed: the surface died under a live handle. -/
def envSurfaceDead : ItemEnv := {
  pageClosed := false,
  gotoExc := some (.surfaceError "Target page, context or browser has been closed"),
  titleRes := .ok "", priceRes := .ok "",
  locationRes := .ok "", descriptionRes := .ok "",
  imageWaitExc := none, imageSrcs := [], download := fun _ => none }

/-- The scenario of claim C3: a well-behaved page whose second image fails to
download. -/
def envImageFail : ItemEnv := {
  pageClosed := false, gotoExc := none,
  titleRes := .ok "Flat B", priceRes := .ok "70000 DZD",
  locationRes := .ok "Oran",
  descriptionRes := .ok "Flat B",
  imageWaitExc := none,
  imageSrcs := [some "https://scontent.host/a.jpg",
                some "https://scontent.host/b.jpg"],
  download := fun u => if u = "https://scontent.host/b.jpg" then none
                       else some "a_local.jpg" }

/-- A store holding a single freshly discovered link. -/
def dbOneNew : ProcessDB := {
  links := [{ id := 1, url := "https://www.facebook.com/marketplace/item/11/",
              status := .new, processedAt := none }],
  properties := [], media := [], nextPropertyId := 1 }

/-- A store holding two freshly discovered links. -/
def dbTwoNew : ProcessDB := {
  links := [{ id := 1, url := "u1", status := .new, processedAt := none },
            { id := 2, url := "u2", status := .new, processedAt := none }],
  properties := [], media := [], nextPropertyId := 1 }

-- ## Lemmas about the item body

/-- The try block always raises: it returns the exception computed by itemExc
and leaves the file store untouched, for every store and file state. -/
lemma itemBody_eq (now : Nat) (env : ItemEnv) (db : ProcessDB) (files : List String) :
    itemBody now env db files = (.error (itemExc env), files) := by
  rcases env with ⟨pc, ge, tr, pr, lr, dr, iw, srcs, dl⟩
  cases pc <;> cases ge <;> cases tr <;> cases pr <;> cases lr <;> cases dr <;>
    (try casesm* PyExc) <;> rfl

/-- One iteration of the item loop, in closed form: the store is rolled back,
the link is finalized as error, the files are unchanged, and the loop breaks
exactly when itemBreaks holds of the environment. -/
lemma processItem_eq (now : Nat) (env : ItemEnv) (link : LinkRow) (st : PState) :
    processItem now env link st =
      ({ db := { st.db with links := finalizeLink now link.id .error st.db.links },
         files := st.files }, itemBreaks env) := by
  simp [processItem, itemBody_eq, itemBreaks]

-- ## Lemmas about sorting and the batch claim

lemma mem_insertById (a r : LinkRow) (l : List LinkRow) :
    a ∈ insertById r l ↔ a = r ∨ a ∈ l := by
  induction l with
  | nil => simp [insertById]
  | cons x xs ih =>
    simp only [insertById]
    split
    · simp [List.mem_cons]
    · simp [List.mem_cons, ih]
      tauto

lemma mem_sortById (a : LinkRow) (l : List LinkRow) : a ∈ sortById l ↔ a ∈ l := by
  induction l with
  | nil => simp [sortById]
  | cons x xs ih => simp [sortById, mem_insertById, ih]

lemma pairwise_insertById (r : LinkRow) (l : List LinkRow)
    (h : l.Pairwise (fun a b => a.id ≤ b.id)) :
    (insertById r l).Pairwise (fun a b => a.id ≤ b.id) := by
  induction l with
  | nil => simp [insertById]
  | cons x xs ih =>
    cases h with
    | cons hx hxs =>
      simp only [insertById]
      split
      · refine List.Pairwise.cons ?_ (List.Pairwise.cons hx hxs)
        intro b hb
        rcases List.mem_cons.mp hb with rfl | hb
        · assumption
        · exact le_trans (by assumption) (hx b hb)
      · refine List.Pairwise.cons ?_ (ih hxs)
        intro b hb
        rcases (mem_insertById b r xs).mp hb with rfl | hb
        · omega
        · exact hx b hb

lemma pairwise_sortById (l : List LinkRow) :
    (sortById l).Pairwise (fun a b => a.id ≤ b.id) := by
  induction l with
  | nil => simp [sortById]
  | cons x xs ih => exact pairwise_insertById x _ ih

/-- Every claimed row passed the status filter and comes from the store. -/
lemma claimBatch_mem {db : ProcessDB} {r : LinkRow} (h : r ∈ (claimBatch db).1) :
    claimFilter r = true ∧ r ∈ db.links := by
  have h2 : r ∈ sortById (db.links.filter claimFilter) := List.mem_of_mem_take h
  have h3 := (mem_sortById r _).mp h2
  exact ⟨(List.mem_filter.mp h3).2, (List.mem_filter.mp h3).1⟩

/-- The links of the committed store after a claim, in closed form. -/
lemma claimBatch_links (db : ProcessDB) :
    (claimBatch db).2.links = db.links.map (fun r =>
      if r.id ∈ (claimBatch db).1.map (fun x => x.id)
      then { r with status := .processing } else r) := rfl

lemma claimBatch_properties (db : ProcessDB) :
    (claimBatch db).2.properties = db.properties := rfl

lemma claimBatch_media (db : ProcessDB) :
    (claimBatch db).2.media = db.media := rfl

-- ## The item loop in closed form

/-- Finalization of a set of link ids as error at one instant; sequential
finalization of single ids composes into this form. -/
def finalizeMany (now : Nat) (ids : List Nat) (links : List LinkRow) : List LinkRow :=
  links.map (fun r =>
    if r.id ∈ ids then { r with status := .error, processedAt := some now } else r)

lemma finalizeMany_nil (now : Nat) (links : List LinkRow) :
    finalizeMany now [] links = links := by
  simp [finalizeMany]

lemma finalizeLink_eq_one (now : Nat) (i : Nat) (links : List LinkRow) :
    finalizeLink now i .error links = finalizeMany now [i] links := by
  simp [finalizeLink, finalizeMany]

lemma finalizeMany_after_one (now : Nat) (i : Nat) (ids : List Nat)
    (links : List LinkRow) :
    finalizeMany now ids (finalizeLink now i .error links) =
      finalizeMany now (i :: ids) links := by
  simp only [finalizeMany, finalizeLink, List.map_map]
  apply List.map_congr_left
  intro r _
  by_cases h : r.id = i
  · by_cases h2 : r.id ∈ ids <;> simp [Function.comp, h, h2]
  · by_cases h2 : r.id ∈ ids <;> simp [Function.comp, h, h2]

/-- The item loop in closed form: some prefix of length k of the claimed rows
is finalized as error, nothing else in the store or the file directory
changes, and either the whole batch was processed or the prefix ends at an
item whose failure stops the batch. -/
lemma processLoop_run (now : Nat) (envOf : Nat → ItemEnv) :
    ∀ (items : List LinkRow) (st : PState),
    ∃ k, k ≤ items.length ∧
      processLoop now envOf items st =
        { db := { st.db with
            links := finalizeMany now ((items.take k).map (fun r => r.id)) st.db.links },
          files := st.files } ∧
      (k = items.length ∨
        ∃ l1 b l2, items = l1 ++ b :: l2 ∧ k = l1.length + 1 ∧
          itemBreaks (envOf b.id) = true) := by
  intro items
  induction items with
  | nil =>
    intro st
    refine ⟨0, by simp, ?_, Or.inl rfl⟩
    simp [processLoop, finalizeMany_nil]
  | cons link rest ih =>
    intro st
    by_cases hbrk : itemBreaks (envOf link.id) = true
    · refine ⟨1, by simp, ?_, Or.inr ⟨[], link, rest, rfl, rfl, hbrk⟩⟩
      simp [processLoop, processItem_eq, hbrk, finalizeLink_eq_one]
    · obtain ⟨k, hk, heq, hdisj⟩ := ih
        { db := { st.db with links := finalizeLink now link.id .error st.db.links },
          files := st.files }
      refine ⟨k + 1, by simpa using Nat.succ_le_succ hk, ?_, ?_⟩
      · simp only [Bool.not_eq_true] at hbrk
        simp only [processLoop, processItem_eq, hbrk]
        rw [heq]
        simp [finalizeMany_after_one, List.take_succ_cons]
      · rcases hdisj with rfl | ⟨l1, b, l2, rfl, rfl, hb⟩
        · exact Or.inl (by simp)
        · exact Or.inr ⟨link :: l1, b, l2, rfl, by simp, hb⟩

-- ## Claim C7: price parsing

/-- C7, counterexample. The claim says a parsed value of 0 is coerced to 1,
so on the text 0 DZD it expects 1 (parse_price_claim_reading). The code tests
the digit string for emptiness, not the parsed value for zero: 0 DZD parses
to 0. -/
theorem claim7_price_zero_counterexample :
    parse_price "0 DZD" = 0 ∧ parse_price_claim_reading "0 DZD" = 1 := by
  decide

/-- C7 as amended: price parsing depends only on the digit characters of the
text; 1,250 DZD parses to 1250; a text with no digits at all parses to 1; a
digit string whose value is 0 parses to 0 and is not coerced. -/
theorem claim7_price_parsing_amended :
    (∀ t : String,
      parse_price t = parse_price (String.mk (t.toList.filter Char.isDigit))) ∧
    parse_price "1,250 DZD" = 1250 ∧
    parse_price "FREE" = 1 ∧
    parse_price "0 DZD" = 0 := by
  refine ⟨?_, by decide, by decide, by decide⟩
  intro t
  have h : (String.mk (t.toList.filter Char.isDigit)).toList
      = t.toList.filter Char.isDigit := rfl
  have h2 : List.filter Char.isDigit (List.filter Char.isDigit t.toList)
      = List.filter Char.isDigit t.toList :=
    List.filter_eq_self.mpr (fun a ha => List.of_mem_filter ha)
  simp only [parse_price, h, h2]

-- ## Claim C8: phone extraction

/-- C8. The claim (with the spec and the comment on line 95 of the source)
says a hyphen is tolerated between every pair of adjacent groups and that the
emoji example extracts 0512345678. In the code the separator class between
the third and the fourth group reads a double quote and an underscore in
place of the hyphen, so both the emoji example and its plain-digit form
yield no match; a comma in that position still matches. -/
theorem claim8_phone_separator_code_bug :
    extract_phone_number "0️⃣5️⃣ 12-34-56-78" = none ∧
    extract_phone_number "05 12-34-56-78" = none ∧
    extract_phone_number "call me" = none ∧
    extract_phone_number "05 12 34 56 78" = some "0512345678" ∧
    extract_phone_number "05 12-34,56-78" = some "0512345678" := by
  decide

-- ## Claim C10: stagnation policy

/-- C10, counterexample. The claim counts iterations in which the rendered
total does not grow; the code counts iterations in which it is exactly equal
to the previous positive total. Feeding counts 10, 9, 9, 9, 9, 9 from a fresh
state gives five consecutive iterations with no growth (each count at most
its predecessor, as the chain states) yet no cooldown is ever slept. -/
theorem claim10_stagnation_counterexample :
    (scrollRun ⟨0, 0⟩ [10, 9, 9, 9, 9, 9]).2 =
      [none, none, none, none, none, none] ∧
    List.Chain' (fun a b => b ≤ a) [10, 9, 9, 9, 9, 9] := by
  refine ⟨by decide, ?_⟩
  simp [List.chain'_cons]

/-- C10 as amended: after five consecutive iterations whose rendered total
equals the previous, positive total, the loop sleeps the fixed 30-second
cooldown and resets the stagnation counter to zero rather than terminating;
an iteration whose total differs from the previous one (or with a previous
total of zero) resets the counter and sleeps no cooldown. The loop itself
never exits: it runs until the rendering surface is closed by the caller. -/
theorem claim10_stagnation_amended (st : ScrollState) (n : Nat) :
    (st.counter = 0 → st.last = n → 0 < n →
      scrollRun st [n, n, n, n, n] =
        ({ counter := 0, last := n }, [none, none, none, none, some 30])) ∧
    (∀ m, ¬(m = st.last ∧ 0 < st.last) →
      scrollStep st m = ({ counter := 0, last := m }, none)) := by
  constructor
  · rintro h0 hl hpos
    rcases st with ⟨c, l⟩
    simp only at h0 hl
    subst h0
    subst hl
    simp [scrollRun, scrollStep, hpos]
  · intro m hm
    simp [scrollStep, hm]

/-- C10, witness for the amended theorem. -/
theorem claim10_stagnation_witness :
    scrollRun ⟨0, 7⟩ [7, 7, 7, 7, 7] =
      ({ counter := 0, last := 7 }, [none, none, none, none, some 30]) ∧
    scrollStep ⟨3, 7⟩ 9 = ({ counter := 0, last := 9 }, none) :=
  ⟨(claim10_stagnation_amended ⟨0, 7⟩ 7).1 rfl rfl (by decide),
   (claim10_stagnation_amended ⟨3, 7⟩ 7).2 9 (by decide)⟩

-- ## Claim C9: idempotent discovery

/-- C9: a second insertion of the same source item identifier is a no-op
returning rowcount 0 and changing nothing, whatever url it carries; the
insert keeps identifiers unique, so at most one row exists per identifier;
and across one collection step the session counter grows exactly by the
number of rows actually inserted, so only actual insertions are counted. -/
theorem claim9_discovery_idempotent :
    (∀ (db : CollectDB) (i u u2 : String),
      insertIgnore (insertIgnore db i u).1 i u2 = ((insertIgnore db i u).1, 0)) ∧
    (∀ (db : CollectDB) (i u : String),
      db.rows.Pairwise (fun a b => a.fbItemId ≠ b.fbItemId) →
      (insertIgnore db i u).1.rows.Pairwise (fun a b => a.fbItemId ≠ b.fbItemId)) ∧
    (∀ (st : CollectState) (href : Option String),
      (collectStep st href).collected + st.db.rows.length =
        st.collected + (collectStep st href).db.rows.length) := by
  refine ⟨?_, ?_, ?_⟩
  · intro db i u u2
    by_cases h : db.rows.any (fun r => r.fbItemId == i) = true
    · simp [insertIgnore, h]
    · simp [insertIgnore, h, List.any_append]
  · intro db i u hp
    by_cases h : db.rows.any (fun r => r.fbItemId == i) = true
    · simpa [insertIgnore, h] using hp
    · have hrows : (insertIgnore db i u).1.rows
          = db.rows ++ [{ fbItemId := i, url := u, status := .new }] := by
        simp [insertIgnore, h]
      rw [hrows]
      refine (List.pairwise_append).mpr ⟨hp, by simp, ?_⟩
      intro a ha b hb
      simp only [List.mem_singleton] at hb
      subst hb
      simp only [List.any_eq_true] at h
      intro hEq
      exact h ⟨a, ha, by simp [hEq]⟩
  · intro st href
    rcases href with _ | h
    · rfl
    · by_cases he : h = ""
      · simp [collectStep, he]
      · rcases hp : parseItemId h with _ | itemId
        · simp [collectStep, he, hp]
        · by_cases hs : itemId ∈ st.seen
          · simp [collectStep, he, hp, hs]
          · by_cases ha : st.db.rows.any
                (fun r => r.fbItemId == itemId) = true
            · simp [collectStep, he, hp, hs, insertIgnore, ha]
            · simp [collectStep, he, hp, hs, insertIgnore, ha]
              omega

-- ## Claim C4: the batch claim

/-- C4: the batch claim selects at most PROCESS_LIMIT rows, PROCESS_LIMIT is
the configured 100, every selected row has status new or error and comes from
the store, the selection is ordered by id ascending, every selected row has
status processing in the store committed before the first item is processed,
unselected rows are unchanged, and the property and media tables are
untouched. The FOR UPDATE row lock is modelled by the whole claim step being
one atomic transition of the shared store. -/
theorem claim4_batch_claim (db : ProcessDB) :
    (claimBatch db).1.length ≤ PROCESS_LIMIT ∧
    PROCESS_LIMIT = 100 ∧
    (∀ r ∈ (claimBatch db).1, (r.status = .new ∨ r.status = .error) ∧ r ∈ db.links) ∧
    (claimBatch db).1.Pairwise (fun a b => a.id ≤ b.id) ∧
    (∀ r ∈ (claimBatch db).2.links,
      r.id ∈ (claimBatch db).1.map (fun x => x.id) → r.status = .processing) ∧
    (∀ r ∈ (claimBatch db).2.links,
      r.id ∉ (claimBatch db).1.map (fun x => x.id) → r ∈ db.links) ∧
    (claimBatch db).2.properties = db.properties ∧
    (claimBatch db).2.media = db.media := by
  refine ⟨?_, rfl, ?_, ?_, ?_, ?_, rfl, rfl⟩
  · have h : (claimBatch db).1
        = (sortById (db.links.filter claimFilter)).take PROCESS_LIMIT := rfl
    rw [h, List.length_take]
    exact Nat.min_le_left _ _
  · intro r hr
    obtain ⟨hf, hmem⟩ := claimBatch_mem hr
    refine ⟨?_, hmem⟩
    simpa [claimFilter] using hf
  · exact (pairwise_sortById _).sublist (List.take_sublist _ _)
  · intro r hr hid
    rw [claimBatch_links] at hr
    rcases List.mem_map.mp hr with ⟨r0, hr0, hEq⟩
    by_cases hin : r0.id ∈ (claimBatch db).1.map (fun x => x.id)
    · rw [if_pos hin] at hEq
      subst hEq
      rfl
    · rw [if_neg hin] at hEq
      subst hEq
      exact absurd hid hin
  · intro r hr hid
    rw [claimBatch_links] at hr
    rcases List.mem_map.mp hr with ⟨r0, hr0, hEq⟩
    by_cases hin : r0.id ∈ (claimBatch db).1.map (fun x => x.id)
    · rw [if_pos hin] at hEq
      subst hEq
      exact absurd hin hid
    · rw [if_neg hin] at hEq
      subst hEq
      exact hr0

/-- C4, witness: on a store with two new links, the first link (claimed, so
carried to status processing in the committed store) and the fact that the
first selected row existed in the store with status new. -/
theorem claim4_batch_claim_witness :
    ({ id := 1, url := "u1", status := .processing, processedAt := none } : LinkRow).status
      = .processing ∧
    ({ id := 1, url := "u1", status := .new, processedAt := none } : LinkRow)
      ∈ dbTwoNew.links :=
  ⟨(claim4_batch_claim dbTwoNew).2.2.2.2.1
      { id := 1, url := "u1", status := .processing, processedAt := none }
      (by decide) (by decide),
   ((claim4_batch_claim dbTwoNew).2.2.1
      { id := 1, url := "u1", status := .new, processedAt := none } (by decide)).2⟩

-- ## Claim C5: claim exclusivity

/-- C5: two batch claims running against the shared store claim disjoint sets
of row identifiers. The FOR UPDATE row lock serializes the two claim
transactions, so concurrency is modelled by running the atomic claim step
twice in either order; the second claim sees every row claimed by the first
with status processing, which its filter excludes. -/
theorem claim5_concurrent_claims_disjoint (db : ProcessDB) :
    ∀ i ∈ (claimBatch db).1.map (fun r => r.id),
      i ∉ (claimBatch (claimBatch db).2).1.map (fun r => r.id) := by
  intro i hi hi2
  rcases List.mem_map.mp hi2 with ⟨r2, hr2, hEq2⟩
  obtain ⟨hf2, hmem2⟩ := claimBatch_mem hr2
  rw [claimBatch_links] at hmem2
  rcases List.mem_map.mp hmem2 with ⟨r0, hr0, hEq0⟩
  by_cases hin : r0.id ∈ (claimBatch db).1.map (fun x => x.id)
  · rw [if_pos hin] at hEq0
    subst hEq0
    simp [claimFilter] at hf2
  · rw [if_neg hin] at hEq0
    subst hEq0
    subst hEq2
    exact hin hi

/-- C5, witness: identifier 1 is claimed by the first batch claim on a store
with two new links, and is indeed not claimed by a second batch claim run on
the committed store. -/
theorem claim5_concurrent_claims_witness :
    (1 : Nat) ∉ (claimBatch (claimBatch dbTwoNew).2).1.map (fun r => r.id) :=
  claim5_concurrent_claims_disjoint dbTwoNew 1 (by decide)

/-- C9, witness: a fresh store, one identifier inserted twice with differing
urls, and one collection step on a well-formed href. -/
theorem claim9_discovery_witness :
    insertIgnore (insertIgnore ⟨[]⟩ "42" "urlA").1 "42" "urlB" =
      ((insertIgnore ⟨[]⟩ "42" "urlA").1, 0) ∧
    (insertIgnore ⟨[]⟩ "42" "urlA").1.rows.Pairwise
      (fun a b => a.fbItemId ≠ b.fbItemId) ∧
    (collectStep ⟨⟨[]⟩, [], 0, 0⟩ (some "/marketplace/item/99/?x=1")).collected
        + (⟨⟨[]⟩, [], 0, 0⟩ : CollectState).db.rows.length =
      (⟨⟨[]⟩, [], 0, 0⟩ : CollectState).collected
        + (collectStep ⟨⟨[]⟩, [], 0, 0⟩
            (some "/marketplace/item/99/?x=1")).db.rows.length :=
  ⟨claim9_discovery_idempotent.1 ⟨[]⟩ "42" "urlA" "urlB",
   claim9_discovery_idempotent.2.1 ⟨[]⟩ "42" "urlA" (by simp),
   claim9_discovery_idempotent.2.2 ⟨⟨[]⟩, [], 0, 0⟩
     (some "/marketplace/item/99/?x=1")⟩

-- ## Claims C1, C2, C3, C6: the item loop

/-- process_links, with the match on the claimed pair unfolded. -/
lemma process_links_eq (now : Nat) (envOf : Nat → ItemEnv) (db : ProcessDB)
    (files : List String) :
    process_links now envOf db files =
      if (claimBatch db).1.isEmpty then { db := db, files := files }
      else processLoop now envOf (claimBatch db).1
        { db := (claimBatch db).2, files := files } := rfl

/-- Whether an Except carries a value. -/
def exceptOk {α : Type} : Except PyExc α → Bool
  | .ok _ => true
  | .error _ => false

/-- Whether a locator read succeeded or timed out; in the second case the
item loop substitutes a fallback value and goes on. -/
def okOrTimeout : Except PyExc String → Bool
  | .ok _ => true
  | .error (.timeoutError _) => true
  | .error _ => false

/-- Whether the surface interactions before line 425 all succeed, so that the
processing of the item reaches the location-resolution call. -/
def reachesLocationCall (env : ItemEnv) : Bool :=
  !env.pageClosed && env.gotoExc.isNone && exceptOk env.titleRes &&
  exceptOk env.priceRes && okOrTimeout env.locationRes &&
  okOrTimeout env.descriptionRes

/-- Whether the try block raised NameError. -/
def raisesNameError : Except PyExc ProcessDB → Bool
  | .error (.nameError _) => true
  | _ => false

set_option maxHeartbeats 2000000 in
/-- C2 as amended: the call on line 425 names get_location_ids, which is
defined nowhere in the program, so the try block of every item whose surface
interactions reach that call raises NameError there and leaves the files
untouched; and unconditionally, process_links persists no property row and no
media row, leaves the file directory unchanged, and never finalizes any link
as completed (every completed row in the final store was already completed
before the run). -/
theorem claim2_name_error_amended :
    (∀ (now : Nat) (env : ItemEnv) (db : ProcessDB) (files : List String),
      reachesLocationCall env = true →
      itemBody now env db files =
        (.error (.nameError "name get_location_ids is not defined"), files)) ∧
    (∀ (now : Nat) (envOf : Nat → ItemEnv) (db : ProcessDB) (files : List String),
      (process_links now envOf db files).db.properties = db.properties ∧
      (process_links now envOf db files).db.media = db.media ∧
      (process_links now envOf db files).files = files ∧
      (∀ r ∈ (process_links now envOf db files).db.links,
        r.status = .completed → ∃ r0 ∈ db.links, r0.id = r.id ∧ r0.status = .completed)) := by
  constructor
  · intro now env db files h
    rw [itemBody_eq]
    rcases env with ⟨pc, ge, tr, pr, lr, dr, iw, srcs, dl⟩
    cases pc <;> cases ge <;> cases tr <;> cases pr <;> cases lr <;> cases dr <;>
      (try casesm* PyExc) <;>
      first
      | rfl
      | simp [reachesLocationCall, okOrTimeout, exceptOk] at h
  · intro now envOf db files
    rw [process_links_eq]
    by_cases hcl : (claimBatch db).1.isEmpty
    · rw [if_pos hcl]
      refine ⟨rfl, rfl, rfl, ?_⟩
      intro r hr hc
      exact ⟨r, hr, rfl, hc⟩
    · rw [if_neg hcl]
      obtain ⟨k, hk, heq, _⟩ :=
        processLoop_run now envOf (claimBatch db).1 ⟨(claimBatch db).2, files⟩
      rw [heq]
      refine ⟨claimBatch_properties db, claimBatch_media db, rfl, ?_⟩
      intro r hr hc
      simp only [finalizeMany] at hr
      rcases List.mem_map.mp hr with ⟨r1, hr1, hEq⟩
      by_cases hfin : r1.id ∈
          (((claimBatch db).1.take k).map (fun r => r.id))
      · rw [if_pos hfin] at hEq
        subst hEq
        simp at hc
      · rw [if_neg hfin] at hEq
        subst hEq
        rw [claimBatch_links] at hr1
        rcases List.mem_map.mp hr1 with ⟨r0, hr0, hEq0⟩
        by_cases hin : r0.id ∈ (claimBatch db).1.map (fun x => x.id)
        · rw [if_pos hin] at hEq0
          subst hEq0
          simp at hc
        · rw [if_neg hin] at hEq0
          subst hEq0
          exact ⟨r0, hr0, rfl, hc⟩

/-- C2, witness for the guarded part of the amended theorem, at the
well-behaved page of the end-to-end scenario. -/
theorem claim2_name_error_witness :
    itemBody 7 envFlatA dbOneNew [] =
      (.error (.nameError "name get_location_ids is not defined"), []) :=
  claim2_name_error_amended.1 7 envFlatA dbOneNew [] (by decide)

/-- C2, counterexample to the claim as stated: the claim says the per-item
body raises NameError for every claimed link. For a claimed link whose page
handle reports closed, the body instead raises ConnectionError before the
location-resolution call is reached. -/
theorem claim2_name_error_counterexample :
    (claimBatch dbOneNew).1 =
      [{ id := 1, url := "https://www.facebook.com/marketplace/item/11/",
         status := .new, processedAt := none }] ∧
    raisesNameError (itemBody 7 envPageClosed dbOneNew []).1 = false ∧
    (itemBody 7 envPageClosed dbOneNew []).1 =
      .error (.connectionError "Browser page closed.") :=
  ⟨by decide, by decide, rfl⟩

/-- C1: the end-to-end scenario of the claim run against the code. The page
yields title Flat A and price text 50000 DZD, which indeed parses to 50000;
the description carries an emoji-encoded phone number that indeed extracts;
two urls on the asset host are collected and both download. The claim expects
one property row with price 50000 and the phone number, two media rows, and a
completed link; the code instead raises NameError at the undefined
get_location_ids call on line 425, rolls back, persists no property row and
no media row, and finalizes the link as error. -/
theorem claim1_happy_path_code_bug :
    parse_price "50000 DZD" = 50000 ∧
    extract_phone_number "Nice flat, call 0️⃣5️⃣5️⃣1️⃣2️⃣3️⃣4️⃣5️⃣6️⃣7️⃣"
      = some "0551234567" ∧
    collectImageUrls envFlatA.imageSrcs =
      ["https://scontent.host/img_a.jpg", "https://scontent.host/img_b.jpg"] ∧
    (collectImageUrls envFlatA.imageSrcs).all
      (fun u => (envFlatA.download u).isSome) = true ∧
    process_links 7 (fun _ => envFlatA) dbOneNew [] =
      { db := { links := [{ id := 1,
                            url := "https://www.facebook.com/marketplace/item/11/",
                            status := .error, processedAt := some 7 }],
                properties := [], media := [], nextPropertyId := 1 },
        files := [] } :=
  ⟨by decide, by decide, by decide, by decide, by decide⟩

/-- C3: processing a claimed item in an environment where some collected
image url fails to download persists no property row and no media row for the
item (the store is rolled back and only the link row is finalized, as error),
and deletes no file already written to local storage. -/
theorem claim3_image_failure_no_persistence (now : Nat) (env : ItemEnv)
    (link : LinkRow) (st : PState) (u : String)
    (_hu : u ∈ collectImageUrls env.imageSrcs) (_hfail : env.download u = none) :
    (processItem now env link st).1.db.properties = st.db.properties ∧
    (processItem now env link st).1.db.media = st.db.media ∧
    (processItem now env link st).1.db.links
      = finalizeLink now link.id .error st.db.links ∧
    (∀ f ∈ st.files, f ∈ (processItem now env link st).1.files) := by
  simp [processItem_eq]

/-- The claimed link row of the C3 witness. -/
def linkC3 : LinkRow := { id := 1, url := "u", status := .processing, processedAt := none }

/-- The run state of the C3 witness: one claimed link and one file already on
local storage. -/
def stC3 : PState :=
  { db := { links := [linkC3], properties := [], media := [], nextPropertyId := 1 },
    files := ["pre_existing.jpg"] }

/-- C3, witness: the second collected url of envImageFail fails to
download. -/
theorem claim3_image_failure_witness :
    ("https://scontent.host/b.jpg" ∈ collectImageUrls envImageFail.imageSrcs) ∧
    ((processItem 7 envImageFail linkC3 stC3).1.db.properties = stC3.db.properties ∧
     (processItem 7 envImageFail linkC3 stC3).1.db.media = stC3.db.media ∧
     (processItem 7 envImageFail linkC3 stC3).1.db.links
       = finalizeLink 7 linkC3.id .error stC3.db.links ∧
     (∀ f ∈ stC3.files, f ∈ (processItem 7 envImageFail linkC3 stC3).1.files)) :=
  ⟨by decide,
   claim3_image_failure_no_persistence 7 envImageFail linkC3 stC3
     "https://scontent.host/b.jpg" (by decide) (by decide)⟩

/-- C6 as amended: for some k bounded by the size of the claimed batch, the
first k claimed rows are finalized (as error, with the processed timestamp)
and every claimed row beyond them keeps status processing; and either k
covers the whole batch, or the k-th item failed with an uncontrolled error
whose message names the closed target page, which stops the loop. So
finalization reaches every claimed row except those after a surface-death
break, which stay processing although the process did not crash. -/
theorem claim6_finalization_amended (now : Nat) (envOf : Nat → ItemEnv)
    (db : ProcessDB) (files : List String) :
    ∃ k, k ≤ (claimBatch db).1.length ∧
      (∀ r ∈ (process_links now envOf db files).db.links,
        (r.id ∈ (((claimBatch db).1.take k).map (fun x => x.id)) →
          r.status = .error ∧ r.processedAt = some now) ∧
        (r.id ∉ (((claimBatch db).1.take k).map (fun x => x.id)) →
          r.id ∈ ((claimBatch db).1.map (fun x => x.id)) →
          r.status = .processing)) ∧
      (k = (claimBatch db).1.length ∨
        ∃ l1 b l2, (claimBatch db).1 = l1 ++ b :: l2 ∧ k = l1.length + 1 ∧
          itemBreaks (envOf b.id) = true) := by
  rw [process_links_eq]
  by_cases hcl : (claimBatch db).1.isEmpty
  · have h0 : (claimBatch db).1 = [] := by simpa using hcl
    refine ⟨0, Nat.zero_le _, ?_, Or.inl (by simp [h0])⟩
    rw [if_pos hcl]
    intro r hr
    constructor
    · intro hmem
      simp [h0] at hmem
    · intro hmem hmem2
      simp [h0] at hmem2
  · rw [if_neg hcl]
    obtain ⟨k, hk, heq, hdisj⟩ :=
      processLoop_run now envOf (claimBatch db).1 ⟨(claimBatch db).2, files⟩
    refine ⟨k, hk, ?_, hdisj⟩
    rw [heq]
    intro r hr
    simp only [finalizeMany] at hr
    rcases List.mem_map.mp hr with ⟨r1, hr1, hEq⟩
    constructor
    · intro hdone
      by_cases hfin : r1.id ∈ (((claimBatch db).1.take k).map (fun r => r.id))
      · rw [if_pos hfin] at hEq
        subst hEq
        exact ⟨rfl, rfl⟩
      · rw [if_neg hfin] at hEq
        subst hEq
        exact absurd hdone hfin
    · intro hnotdone hclaimed
      by_cases hfin : r1.id ∈ (((claimBatch db).1.take k).map (fun r => r.id))
      · rw [if_pos hfin] at hEq
        subst hEq
        exact absurd hfin hnotdone
      · rw [if_neg hfin] at hEq
        subst hEq
        rw [claimBatch_links] at hr1
        rcases List.mem_map.mp hr1 with ⟨r0, hr0, hEq0⟩
        by_cases hin : r0.id ∈ (claimBatch db).1.map (fun x => x.id)
        · rw [if_pos hin] at hEq0
          subst hEq0
          rfl
        · rw [if_neg hin] at hEq0
          subst hEq0
          exact absurd hclaimed hin

/-- C6, witness for the amended theorem, instantiated at the run in which the
surface dies on the first of two claimed links. -/
theorem claim6_finalization_witness :
    ∃ k, k ≤ (claimBatch dbTwoNew).1.length ∧
      (∀ r ∈ (process_links 9 (fun i => if i = 1 then envSurfaceDead else envFlatA)
          dbTwoNew []).db.links,
        (r.id ∈ (((claimBatch dbTwoNew).1.take k).map (fun x => x.id)) →
          r.status = .error ∧ r.processedAt = some 9) ∧
        (r.id ∉ (((claimBatch dbTwoNew).1.take k).map (fun x => x.id)) →
          r.id ∈ ((claimBatch dbTwoNew).1.map (fun x => x.id)) →
          r.status = .processing)) ∧
      (k = (claimBatch dbTwoNew).1.length ∨
        ∃ l1 b l2, (claimBatch dbTwoNew).1 = l1 ++ b :: l2 ∧ k = l1.length + 1 ∧
          itemBreaks ((fun i => if i = 1 then envSurfaceDead else envFlatA) b.id) = true) :=
  claim6_finalization_amended 9 (fun i => if i = 1 then envSurfaceDead else envFlatA)
    dbTwoNew []

/-- C6, counterexample to the claim as stated: two claimed links; the surface
dies during the first item, whose navigation raises an error naming the
closed target page. The first link is finalized as error (the finally block
runs before the break), the loop then stops, and the second claimed link is
left with status processing for good, although the process did not crash:
rows in status processing are never selected by a later batch claim. -/
theorem claim6_stuck_processing_counterexample :
    (claimBatch dbTwoNew).1.map (fun r => r.id) = [1, 2] ∧
    (process_links 9 (fun i => if i = 1 then envSurfaceDead else envFlatA)
        dbTwoNew []).db.links =
      [{ id := 1, url := "u1", status := .error, processedAt := some 9 },
       { id := 2, url := "u2", status := .processing, processedAt := none }] :=
  ⟨by decide, by decide⟩
